import Mathlib

/-!
Shallow embedding of the guardrail runner
(`cosmos1/models/guardrail/common/core.py`) and of the batch-driver loop of
`cosmos1/models/diffusion/inference/text2world.py`, with theorems checking
the repository's specification against this embedding.

Modelling conventions:
* a concrete checker subclass instance is a `ContentSafetyGuardrail`:
  its Python class name together with its `is_safe` implementation;
* a concrete postprocessor subclass instance is a `PostprocessingGuardrail`:
  its Python class name together with its `postprocess` implementation;
* Python `None` for an optional list is `Option.none`; Python truthiness
  `not lst` (which is true for both `None` and `[]`) is `pyFalsyOptList`;
* logging calls are dropped except where a claim is about them (the batch
  driver's critical-skip log messages are modelled explicitly);
* Python exceptions are modelled by `Except`: a checker or transformer that
  may raise returns `Except ε β`, and the runner body binds those results
  exactly where the Python code calls them (the Python code has no
  `try`/`except`, so an error short-circuits the whole call).
-/

/-- Concrete content-safety checker: class name plus `is_safe` body.
`is_safe input` returns `(is_safe, message)` as in the Python docstring. -/
structure ContentSafetyGuardrail (α : Type) where
  className : String
  is_safe : α → Bool × String

/-- Concrete postprocessing guardrail: class name plus `postprocess` body. -/
structure PostprocessingGuardrail (φ : Type) where
  className : String
  postprocess : φ → φ

/-- The runner's four configuration fields, as stored by `__init__`
(after the safe-message default has been applied). -/
structure GuardrailRunner (α φ : Type) where
  safety_models : Option (List (ContentSafetyGuardrail α))
  generic_block_msg : String
  generic_safe_msg : String
  postprocessors : Option (List (PostprocessingGuardrail φ))

/-- Python truthiness of an optional list: `not x` is true for `None`
and for the empty list. -/
def pyFalsyOptList {β : Type} : Option (List β) → Bool
  | Option.none => true
  | Option.some l => l.isEmpty

/-- `GuardrailRunner.__init__`: stores the four arguments, replacing a
falsy (empty) `generic_safe_msg` by `"Prompt is safe"`.  An omitted
argument in Python is the default `None` / `""`, passed here explicitly. -/
def mkGuardrailRunner {α φ : Type}
    (safety_models : Option (List (ContentSafetyGuardrail α)))
    (generic_block_msg generic_safe_msg : String)
    (postprocessors : Option (List (PostprocessingGuardrail φ))) :
    GuardrailRunner α φ :=
  { safety_models := safety_models
    generic_block_msg := generic_block_msg
    generic_safe_msg :=
      if generic_safe_msg ≠ "" then generic_safe_msg else "Prompt is safe"
    postprocessors := postprocessors }

/-- The `msg` computed at a failing checker:
`self.generic_block_msg if self.generic_block_msg else f"{guardrail_name} blocked input"`,
where the Python variable `guardrail_name` holds the second component the
checker returned from `is_safe`. -/
def blockMessage (generic_block_msg checkerMsg : String) : String :=
  if generic_block_msg ≠ "" then generic_block_msg
  else checkerMsg ++ " blocked input"

/-- The `for guardrail in self.safety_models` loop of `run_safety_check`. -/
def checkLoop {α : Type} (generic_block_msg generic_safe_msg : String)
    (input : α) : List (ContentSafetyGuardrail α) → Bool × String
  | [] => (true, generic_safe_msg)
  | g :: rest =>
    let r := g.is_safe input
    if r.1 then checkLoop generic_block_msg generic_safe_msg input rest
    else (false, blockMessage generic_block_msg r.2)

/-- `GuardrailRunner.run_safety_check`. -/
def GuardrailRunner.run_safety_check {α φ : Type}
    (self : GuardrailRunner α φ) (input : α) : Bool × String :=
  if pyFalsyOptList self.safety_models then (true, self.generic_safe_msg)
  else
    checkLoop self.generic_block_msg self.generic_safe_msg input
      (self.safety_models.getD [])

/-- Instrumented form of the checker loop: also returns, in order, the
pairs (index of the checker invoked, input it was invoked with). -/
def checkLoopTrace {α : Type} (generic_block_msg generic_safe_msg : String)
    (input : α) :
    List (ContentSafetyGuardrail α) → Nat → (Bool × String) × List (Nat × α)
  | [], _ => ((true, generic_safe_msg), [])
  | g :: rest, i =>
    let r := g.is_safe input
    if r.1 then
      let res := checkLoopTrace generic_block_msg generic_safe_msg input rest (i + 1)
      (res.1, (i, input) :: res.2)
    else ((false, blockMessage generic_block_msg r.2), [(i, input)])

/-- Instrumented form of `run_safety_check` recording every checker
invocation. -/
def GuardrailRunner.run_safety_check_trace {α φ : Type}
    (self : GuardrailRunner α φ) (input : α) :
    (Bool × String) × List (Nat × α) :=
  if pyFalsyOptList self.safety_models then ((true, self.generic_safe_msg), [])
  else
    checkLoopTrace self.generic_block_msg self.generic_safe_msg input
      (self.safety_models.getD []) 0

/-- The `for guardrail in self.postprocessors` loop of `postprocess`:
`frames = guardrail.postprocess(frames)` for each guardrail in order. -/
def postLoop {φ : Type} : List (PostprocessingGuardrail φ) → φ → φ
  | [], frames => frames
  | g :: rest, frames => postLoop rest (g.postprocess frames)

/-- `GuardrailRunner.postprocess`. -/
def GuardrailRunner.runPostprocess {α φ : Type}
    (self : GuardrailRunner α φ) (frames : φ) : φ :=
  if pyFalsyOptList self.postprocessors then frames
  else postLoop (self.postprocessors.getD []) frames

/-- Left-to-right composition of a transformer list, written from the
spec's words for the refinement claim C5: the composition of an empty
list is the identity, and `f :: fs` applies `f` first. -/
def composeTransformers {φ : Type} :
    List (PostprocessingGuardrail φ) → φ → φ
  | [] => id
  | g :: rest => fun frames => composeTransformers rest (g.postprocess frames)

lemma checkLoopTrace_fst {α : Type} (b s : String) (input : α)
    (models : List (ContentSafetyGuardrail α)) (i : Nat) :
    (checkLoopTrace b s input models i).1 = checkLoop b s input models := by
  induction models generalizing i with
  | nil => rfl
  | cons g rest ih =>
    simp only [checkLoopTrace, checkLoop]
    by_cases h : (g.is_safe input).1
    · simp [h, ih]
    · simp [h]

lemma run_safety_check_eq_trace_fst {α φ : Type}
    (r : GuardrailRunner α φ) (input : α) :
    r.run_safety_check input = (r.run_safety_check_trace input).1 := by
  unfold GuardrailRunner.run_safety_check GuardrailRunner.run_safety_check_trace
  by_cases h : pyFalsyOptList r.safety_models
  · simp [h]
  · simp [h, checkLoopTrace_fst]


lemma checkLoopTrace_all_safe {α : Type} (b s : String) (input : α)
    (models : List (ContentSafetyGuardrail α)) (i : Nat)
    (h : ∀ g ∈ models, (g.is_safe input).1 = true) :
    checkLoopTrace b s input models i =
      ((true, s), (List.range' i models.length).map fun j => (j, input)) := by
  induction models generalizing i with
  | nil => rfl
  | cons g rest ih =>
    have hg : (g.is_safe input).1 = true := h g (List.mem_cons_self g rest)
    have hrest : ∀ g ∈ rest, (g.is_safe input).1 = true :=
      fun g hgm => h g (List.mem_cons_of_mem _ hgm)
    simp [checkLoopTrace, hg, ih (i + 1) hrest, List.range'_succ]

lemma checkLoopTrace_first_failing {α : Type} (b s : String) (input : α)
    (pre post : List (ContentSafetyGuardrail α))
    (gBad : ContentSafetyGuardrail α) (i : Nat)
    (hpre : ∀ g ∈ pre, (g.is_safe input).1 = true)
    (hbad : (gBad.is_safe input).1 = false) :
    checkLoopTrace b s input (pre ++ gBad :: post) i =
      ((false, blockMessage b (gBad.is_safe input).2),
        (List.range' i (pre.length + 1)).map fun j => (j, input)) := by
  induction pre generalizing i with
  | nil => simp [checkLoopTrace, hbad, List.range'_succ]
  | cons g rest ih =>
    have hg : (g.is_safe input).1 = true := hpre g (List.mem_cons_self g rest)
    have hrest : ∀ g ∈ rest, (g.is_safe input).1 = true :=
      fun g hgm => hpre g (List.mem_cons_of_mem _ hgm)
    simp [checkLoopTrace, hg, ih (i + 1) hrest, List.range'_succ]

lemma pyFalsyOptList_append_cons {β : Type} (pre post : List β) (x : β)
    (o : Option (List β)) (h : o = Option.some (pre ++ x :: post)) :
    pyFalsyOptList o = false := by
  subst h
  simp [pyFalsyOptList]

/-- Claim C1: on a non-empty checker list whose first unsafe checker (in
configured index order) is `gBad`, `run_safety_check` returns `false`
together with the message computed from that checker's own output, and the
invocation trace covers exactly the checkers up to and including `gBad`:
no checker after the first failing one is ever invoked. -/
theorem run_safety_check_first_failure_short_circuits {α φ : Type}
    (r : GuardrailRunner α φ) (input : α)
    (pre post : List (ContentSafetyGuardrail α))
    (gBad : ContentSafetyGuardrail α)
    (hmodels : r.safety_models = Option.some (pre ++ gBad :: post))
    (hpre : ∀ g ∈ pre, (g.is_safe input).1 = true)
    (hbad : (gBad.is_safe input).1 = false) :
    r.run_safety_check input =
      (false, blockMessage r.generic_block_msg (gBad.is_safe input).2) ∧
    (r.run_safety_check_trace input).2 =
      (List.range (pre.length + 1)).map fun j => (j, input) := by
  have hfalsy : pyFalsyOptList r.safety_models = false :=
    pyFalsyOptList_append_cons pre post gBad _ hmodels
  have htrace :
      r.run_safety_check_trace input =
        ((false, blockMessage r.generic_block_msg (gBad.is_safe input).2),
          (List.range' 0 (pre.length + 1)).map fun j => (j, input)) := by
    unfold GuardrailRunner.run_safety_check_trace
    rw [hfalsy]
    simp only [Bool.false_eq_true, if_false, hmodels, Option.getD_some]
    exact checkLoopTrace_first_failing _ _ input pre post gBad 0 hpre hbad
  constructor
  · rw [run_safety_check_eq_trace_fst, htrace]
  · rw [htrace, List.range_eq_range']

/-- Example checkers and runner used by the witnesses: A and C report
safe, B reports unsafe with explanation "R"; the runner is built with no
generic block message. -/
def exCheckerA : ContentSafetyGuardrail Nat :=
  ⟨"A", fun _ => (true, "a-ok")⟩

def exCheckerB : ContentSafetyGuardrail Nat :=
  ⟨"B", fun _ => (false, "R")⟩

def exCheckerC : ContentSafetyGuardrail Nat :=
  ⟨"C", fun _ => (true, "c-ok")⟩

def exRunnerABC : GuardrailRunner Nat Nat :=
  mkGuardrailRunner (Option.some [exCheckerA, exCheckerB, exCheckerC]) "" ""
    Option.none

/-- Witness for C1: with checkers [A(safe), B(unsafe, "R"), C(safe)] the
check returns false with the message derived from B, and only checkers 0
and 1 are invoked. -/
theorem run_safety_check_first_failure_short_circuits_witness :
    exRunnerABC.run_safety_check 7 = (false, "R blocked input") ∧
      (exRunnerABC.run_safety_check_trace 7).2 = [(0, 7), (1, 7)] := by
  have h := @run_safety_check_first_failure_short_circuits Nat Nat
    exRunnerABC 7 [exCheckerA] [exCheckerC] exCheckerB rfl
    (by
      intro g hg
      rw [List.mem_singleton] at hg
      subst hg
      rfl)
    rfl
  simpa [exRunnerABC, mkGuardrailRunner, exCheckerB, blockMessage,
    List.range] using h

/-- Example checker whose class name is "FOO" and whose explanation on
rejection is "bad"; example runners around it with and without a generic
block message. -/
def exCheckerFoo : ContentSafetyGuardrail Nat :=
  ⟨"FOO", fun _ => (false, "bad")⟩

def exRunnerFoo : GuardrailRunner Nat Nat :=
  mkGuardrailRunner (Option.some [exCheckerFoo]) "" "" Option.none

def exRunnerFooBlocked : GuardrailRunner Nat Nat :=
  mkGuardrailRunner (Option.some [exCheckerFoo]) "Blocked by policy" ""
    Option.none

/-- Counterexample to claim C2 as stated: with no generic block message,
the failing checker's class name ("FOO") does not occur anywhere in the
returned message; the message is built from the checker's explanation
string alone, so it does not combine the checker's identity with its
explanation. -/
theorem run_safety_check_message_lacks_class_name :
    (exRunnerFoo.run_safety_check 0).2 = "bad blocked input" ∧
      ¬ List.IsInfix exCheckerFoo.className.data
          (exRunnerFoo.run_safety_check 0).2.data := by
  constructor
  · rfl
  · decide

/-- Claim C2 (amended): when some checker reports unsafe, the returned
message is the runner's configured generic block message when that is
non-empty, and otherwise is the failing checker's own explanation string
followed by " blocked input"; the checker's class name is not used. -/
theorem run_safety_check_message_resolution {α φ : Type}
    (r : GuardrailRunner α φ) (input : α)
    (pre post : List (ContentSafetyGuardrail α))
    (gBad : ContentSafetyGuardrail α)
    (hmodels : r.safety_models = Option.some (pre ++ gBad :: post))
    (hpre : ∀ g ∈ pre, (g.is_safe input).1 = true)
    (hbad : (gBad.is_safe input).1 = false) :
    (r.run_safety_check input).2 =
      if r.generic_block_msg ≠ "" then r.generic_block_msg
      else (gBad.is_safe input).2 ++ " blocked input" := by
  have hfalsy : pyFalsyOptList r.safety_models = false :=
    pyFalsyOptList_append_cons pre post gBad _ hmodels
  rw [run_safety_check_eq_trace_fst]
  unfold GuardrailRunner.run_safety_check_trace
  rw [hfalsy]
  simp only [Bool.false_eq_true, if_false, hmodels, Option.getD_some]
  rw [checkLoopTrace_first_failing _ _ input pre post gBad 0 hpre hbad]
  rfl

/-- Witness for C2 (amended): the same failing checker yields the generic
block message when one is configured, and its own explanation followed by
" blocked input" when none is. -/
theorem run_safety_check_message_resolution_witness :
    (exRunnerFooBlocked.run_safety_check 0).2 = "Blocked by policy" ∧
      (exRunnerFoo.run_safety_check 0).2 = "bad blocked input" := by
  have h1 := @run_safety_check_message_resolution Nat Nat
    exRunnerFooBlocked 0 [] [] exCheckerFoo rfl (by intro g hg; cases hg) rfl
  have h2 := @run_safety_check_message_resolution Nat Nat
    exRunnerFoo 0 [] [] exCheckerFoo rfl (by intro g hg; cases hg) rfl
  refine ⟨?_, ?_⟩
  · rw [h1]
    rfl
  · rw [h2]
    rfl

/-- Claim C3: with an absent (`None`) or empty checker list, the check
fails open: it returns `(true, generic_safe_msg)` for every input. -/
theorem run_safety_check_empty_fail_open {α φ : Type}
    (r : GuardrailRunner α φ) (input : α)
    (h : r.safety_models = Option.none ∨ r.safety_models = Option.some []) :
    r.run_safety_check input = (true, r.generic_safe_msg) := by
  unfold GuardrailRunner.run_safety_check
  rcases h with h | h <;> rw [h] <;> rfl

/-- Witness for C3: an unconfigured runner (checkers omitted, messages
omitted) reports safe with the defaulted safe message, both for an absent
and for an empty checker list. -/
theorem run_safety_check_empty_fail_open_witness :
    (mkGuardrailRunner (Option.none) "" ""
        (Option.none : Option (List (PostprocessingGuardrail Nat)))).run_safety_check
        (42 : Nat) = (true, "Prompt is safe") ∧
      (mkGuardrailRunner (Option.some ([] : List (ContentSafetyGuardrail Nat)))
        "" "" (Option.none : Option (List (PostprocessingGuardrail Nat)))).run_safety_check
        (42 : Nat) = (true, "Prompt is safe") := by
  constructor
  · exact run_safety_check_empty_fail_open _ 42 (Or.inl rfl)
  · exact run_safety_check_empty_fail_open _ 42 (Or.inr rfl)

/-- Claim C4: when every configured checker reports safe on the input,
the check returns `(true, generic_safe_msg)`, and the trace shows each
checker invoked exactly once, in index order, with that same input. -/
theorem run_safety_check_all_safe {α φ : Type}
    (r : GuardrailRunner α φ) (input : α)
    (models : List (ContentSafetyGuardrail α))
    (hmodels : r.safety_models = Option.some models)
    (hsafe : ∀ g ∈ models, (g.is_safe input).1 = true) :
    r.run_safety_check input = (true, r.generic_safe_msg) ∧
      (r.run_safety_check_trace input).2 =
        (List.range models.length).map fun j => (j, input) := by
  cases models with
  | nil =>
    have htrue : pyFalsyOptList r.safety_models = true := by
      rw [hmodels]
      rfl
    unfold GuardrailRunner.run_safety_check GuardrailRunner.run_safety_check_trace
    rw [htrue]
    simp
  | cons g rest =>
    have hfalsy : pyFalsyOptList r.safety_models = false := by
      rw [hmodels]
      rfl
    have htrace : r.run_safety_check_trace input =
        ((true, r.generic_safe_msg),
          (List.range' 0 (g :: rest).length).map fun j => (j, input)) := by
      unfold GuardrailRunner.run_safety_check_trace
      rw [hfalsy]
      simp only [Bool.false_eq_true, if_false, hmodels, Option.getD_some]
      exact checkLoopTrace_all_safe _ _ input (g :: rest) 0 hsafe
    constructor
    · rw [run_safety_check_eq_trace_fst, htrace]
    · rw [htrace, List.range_eq_range']

/-- Example runner whose two checkers both report safe. -/
def exRunnerAllSafe : GuardrailRunner Nat Nat :=
  mkGuardrailRunner (Option.some [exCheckerA, exCheckerC]) "" "" Option.none

/-- Witness for C4: both checkers safe on input 5 gives the defaulted safe
message and a trace invoking checkers 0 and 1 with input 5. -/
theorem run_safety_check_all_safe_witness :
    exRunnerAllSafe.run_safety_check 5 = (true, "Prompt is safe") ∧
      (exRunnerAllSafe.run_safety_check_trace 5).2 = [(0, 5), (1, 5)] := by
  have h := @run_safety_check_all_safe Nat Nat exRunnerAllSafe 5
    [exCheckerA, exCheckerC] rfl
    (by
      intro g hg
      rcases List.mem_cons.mp hg with h1 | h2
      · rw [h1]
        rfl
      · rw [List.mem_singleton.mp h2]
        rfl)
  simpa [exRunnerAllSafe, mkGuardrailRunner, List.range] using h

lemma postLoop_eq_composeTransformers {φ : Type}
    (ps : List (PostprocessingGuardrail φ)) (frames : φ) :
    postLoop ps frames = composeTransformers ps frames := by
  induction ps generalizing frames with
  | nil => rfl
  | cons g rest ih => simp [postLoop, composeTransformers, ih]

/-- Claim C5: `postprocess` equals the left-to-right composition of the
configured transformers (output of each threaded as input of the next),
and with an absent or empty transformer list it is the identity on
frames. -/
theorem postprocess_is_left_to_right_composition {α φ : Type}
    (r : GuardrailRunner α φ) (frames : φ) :
    r.runPostprocess frames =
        composeTransformers (r.postprocessors.getD []) frames ∧
      GuardrailRunner.runPostprocess
          { r with postprocessors := Option.none } frames = frames ∧
      GuardrailRunner.runPostprocess
          { r with postprocessors := Option.some [] } frames = frames := by
  refine ⟨?_, rfl, rfl⟩
  unfold GuardrailRunner.runPostprocess
  cases hp : r.postprocessors with
  | none => rfl
  | some ps =>
    cases ps with
    | nil => rfl
    | cons g rest => simp [pyFalsyOptList, postLoop_eq_composeTransformers]

/-- Checker that may raise: its `is_safe` either raises a Python
exception (modelled by `Except.error`) or returns the usual pair. -/
structure ContentSafetyGuardrailE (α ε : Type) where
  className : String
  is_safe : α → Except ε (Bool × String)

/-- Postprocessor that may raise. -/
structure PostprocessingGuardrailE (φ ε : Type) where
  className : String
  postprocess : φ → Except ε φ

/-- The runner over possibly-raising checkers and transformers. -/
structure GuardrailRunnerE (α φ ε : Type) where
  safety_models : Option (List (ContentSafetyGuardrailE α ε))
  generic_block_msg : String
  generic_safe_msg : String
  postprocessors : Option (List (PostprocessingGuardrailE φ ε))

/-- The checker loop of `run_safety_check` over possibly-raising
checkers: the Python body has no try/except around
`guardrail.is_safe(input)`, so a raised exception aborts the whole loop
and propagates unchanged. -/
def checkLoopE {α ε : Type} (generic_block_msg generic_safe_msg : String)
    (input : α) :
    List (ContentSafetyGuardrailE α ε) → Except ε (Bool × String)
  | [] => Except.ok (true, generic_safe_msg)
  | g :: rest =>
    match g.is_safe input with
    | Except.error e => Except.error e
    | Except.ok r =>
      if r.1 then checkLoopE generic_block_msg generic_safe_msg input rest
      else Except.ok (false, blockMessage generic_block_msg r.2)

/-- `run_safety_check` over possibly-raising checkers. -/
def GuardrailRunnerE.runSafetyCheckE {α φ ε : Type}
    (self : GuardrailRunnerE α φ ε) (input : α) : Except ε (Bool × String) :=
  if pyFalsyOptList self.safety_models then
    Except.ok (true, self.generic_safe_msg)
  else
    checkLoopE self.generic_block_msg self.generic_safe_msg input
      (self.safety_models.getD [])

/-- The transformer loop of `postprocess` over possibly-raising
transformers: no try/except, so a raised exception propagates. -/
def postLoopE {φ ε : Type} :
    List (PostprocessingGuardrailE φ ε) → φ → Except ε φ
  | [], frames => Except.ok frames
  | g :: rest, frames =>
    match g.postprocess frames with
    | Except.error e => Except.error e
    | Except.ok frames2 => postLoopE rest frames2

/-- `postprocess` over possibly-raising transformers. -/
def GuardrailRunnerE.runPostprocessE {α φ ε : Type}
    (self : GuardrailRunnerE α φ ε) (frames : φ) : Except ε φ :=
  if pyFalsyOptList self.postprocessors then Except.ok frames
  else postLoopE (self.postprocessors.getD []) frames

lemma checkLoopE_skips_safe_front {α ε : Type} (b s : String) (input : α)
    (pre rest : List (ContentSafetyGuardrailE α ε))
    (hpre : ∀ c ∈ pre, ∃ m, c.is_safe input = Except.ok (true, m)) :
    checkLoopE b s input (pre ++ rest) = checkLoopE b s input rest := by
  induction pre with
  | nil => rfl
  | cons c ctl ih =>
    obtain ⟨m, hm⟩ := hpre c (List.mem_cons_self c ctl)
    have htl : ∀ c ∈ ctl, ∃ m, c.is_safe input = Except.ok (true, m) :=
      fun c hc => hpre c (List.mem_cons_of_mem _ hc)
    simp [checkLoopE, hm, ih htl]

lemma postLoopE_threads_front {φ ε : Type}
    (pre rest : List (PostprocessingGuardrailE φ ε)) (frames frames2 : φ)
    (hpre : postLoopE pre frames = Except.ok frames2) :
    postLoopE (pre ++ rest) frames = postLoopE rest frames2 := by
  induction pre generalizing frames with
  | nil =>
    simp only [postLoopE] at hpre
    cases hpre
    rfl
  | cons t ttl ih =>
    simp only [postLoopE, List.cons_append] at hpre ⊢
    cases ht : t.postprocess frames with
    | error e =>
      rw [ht] at hpre
      cases hpre
    | ok f2 =>
      rw [ht] at hpre
      exact ih f2 hpre

/-- Claim C6: errors raised by a checker or a transformer propagate to
the caller unchanged — when every checker before `cBad` reports safe and
`cBad` raises `e`, `run_safety_check` raises exactly `e` and in particular
never reports safe; and when the transformers before `tBad` produce
`frames2` and `tBad` raises `e2` there, `postprocess` raises exactly
`e2`. -/
theorem guardrail_runner_propagates_errors {α φ ε : Type}
    (r1 : GuardrailRunnerE α φ ε) (input : α)
    (pre post : List (ContentSafetyGuardrailE α ε))
    (cBad : ContentSafetyGuardrailE α ε) (e : ε)
    (hmodels : r1.safety_models = Option.some (pre ++ cBad :: post))
    (hpre : ∀ c ∈ pre, ∃ m, c.is_safe input = Except.ok (true, m))
    (hbad : cBad.is_safe input = Except.error e)
    (r2 : GuardrailRunnerE α φ ε) (frames frames2 : φ)
    (tpre tpost : List (PostprocessingGuardrailE φ ε))
    (tBad : PostprocessingGuardrailE φ ε) (e2 : ε)
    (hpost : r2.postprocessors = Option.some (tpre ++ tBad :: tpost))
    (htpre : postLoopE tpre frames = Except.ok frames2)
    (htbad : tBad.postprocess frames2 = Except.error e2) :
    r1.runSafetyCheckE input = Except.error e ∧
      (∀ m : String, r1.runSafetyCheckE input ≠ Except.ok (true, m)) ∧
      r2.runPostprocessE frames = Except.error e2 := by
  have hfalsy1 : pyFalsyOptList r1.safety_models = false :=
    pyFalsyOptList_append_cons pre post cBad _ hmodels
  have hfalsy2 : pyFalsyOptList r2.postprocessors = false :=
    pyFalsyOptList_append_cons tpre tpost tBad _ hpost
  have hcheck : r1.runSafetyCheckE input = Except.error e := by
    unfold GuardrailRunnerE.runSafetyCheckE
    rw [hfalsy1]
    simp only [Bool.false_eq_true, if_false, hmodels, Option.getD_some]
    rw [checkLoopE_skips_safe_front _ _ input pre (cBad :: post) hpre]
    simp [checkLoopE, hbad]
  refine ⟨hcheck, ?_, ?_⟩
  · intro m hm
    rw [hcheck] at hm
    cases hm
  · unfold GuardrailRunnerE.runPostprocessE
    rw [hfalsy2]
    simp only [Bool.false_eq_true, if_false, hpost, Option.getD_some]
    rw [postLoopE_threads_front tpre (tBad :: tpost) frames frames2 htpre]
    simp [postLoopE, htbad]

/-- Example possibly-raising checkers, transformers and runners: the
second checker raises "boom"; the second transformer raises "tboom"
after the first transformer has incremented the frame value. -/
def exCheckerOkE : ContentSafetyGuardrailE Nat String :=
  ⟨"OK", fun _ => Except.ok (true, "fine")⟩

def exCheckerBoomE : ContentSafetyGuardrailE Nat String :=
  ⟨"BOOM", fun _ => Except.error "boom"⟩

def exPostIncrE : PostprocessingGuardrailE Nat String :=
  ⟨"INCR", fun f => Except.ok (f + 1)⟩

def exPostBoomE : PostprocessingGuardrailE Nat String :=
  ⟨"TBOOM", fun _ => Except.error "tboom"⟩

def exRunnerBoomE : GuardrailRunnerE Nat Nat String :=
  ⟨Option.some [exCheckerOkE, exCheckerBoomE], "", "safe", Option.none⟩

def exRunnerPostBoomE : GuardrailRunnerE Nat Nat String :=
  ⟨Option.none, "", "safe", Option.some [exPostIncrE, exPostBoomE]⟩

/-- Witness for C6: the raising checker's error "boom" and the raising
transformer's error "tboom" surface unchanged. -/
theorem guardrail_runner_propagates_errors_witness :
    exRunnerBoomE.runSafetyCheckE 3 = Except.error "boom" ∧
      exRunnerPostBoomE.runPostprocessE 10 = Except.error "tboom" := by
  have h := @guardrail_runner_propagates_errors Nat Nat String
    exRunnerBoomE 3 [exCheckerOkE] [] exCheckerBoomE "boom" rfl
    (by
      intro c hc
      rw [List.mem_singleton] at hc
      subst hc
      exact ⟨"fine", rfl⟩)
    rfl
    exRunnerPostBoomE 10 11 [exPostIncrE] [] exPostBoomE "tboom" rfl rfl rfl
  exact ⟨h.1, h.2.2⟩

/-- State-passing translation of `run_safety_check`: a Python method
receives `self` and could in principle rebind its attributes, so the
translation returns the result together with the final `self`; the method
body only reads `self`, so each exit returns the `self` it received. -/
def GuardrailRunner.run_safety_check_st {α φ : Type}
    (self : GuardrailRunner α φ) (input : α) :
    (Bool × String) × GuardrailRunner α φ :=
  if pyFalsyOptList self.safety_models then
    ((true, self.generic_safe_msg), self)
  else
    (checkLoop self.generic_block_msg self.generic_safe_msg input
      (self.safety_models.getD []), self)

/-- State-passing translation of `postprocess`, as for
`run_safety_check_st`. -/
def GuardrailRunner.runPostprocess_st {α φ : Type}
    (self : GuardrailRunner α φ) (frames : φ) :
    φ × GuardrailRunner α φ :=
  if pyFalsyOptList self.postprocessors then (frames, self)
  else (postLoop (self.postprocessors.getD []) frames, self)

lemma run_safety_check_st_snd {α φ : Type}
    (r : GuardrailRunner α φ) (input : α) :
    (r.run_safety_check_st input).2 = r := by
  unfold GuardrailRunner.run_safety_check_st
  by_cases h : pyFalsyOptList r.safety_models <;> simp [h]

lemma runPostprocess_st_snd {α φ : Type}
    (r : GuardrailRunner α φ) (frames : φ) :
    (r.runPostprocess_st frames).2 = r := by
  unfold GuardrailRunner.runPostprocess_st
  by_cases h : pyFalsyOptList r.postprocessors <;> simp [h]

/-- Claim C7: `run_safety_check` and `postprocess` leave the runner's
four configuration fields unchanged (the final `self` of the
state-passing translation is the initial one), and their results are
pure functions of the input and the configuration: two runners agreeing
on all four fields give equal results on equal inputs. -/
theorem guardrail_runner_pure_and_config_preserving {α φ : Type}
    (r1 r2 : GuardrailRunner α φ) (input : α) (frames : φ)
    (hsm : r1.safety_models = r2.safety_models)
    (hbm : r1.generic_block_msg = r2.generic_block_msg)
    (hsf : r1.generic_safe_msg = r2.generic_safe_msg)
    (hpp : r1.postprocessors = r2.postprocessors) :
    (r1.run_safety_check_st input).2 = r1 ∧
      (r1.runPostprocess_st frames).2 = r1 ∧
      r1.run_safety_check input = r2.run_safety_check input ∧
      r1.runPostprocess frames = r2.runPostprocess frames := by
  have heq : r1 = r2 := by
    cases r1
    cases r2
    simp_all
  subst heq
  exact ⟨run_safety_check_st_snd r1 input, runPostprocess_st_snd r1 frames,
    rfl, rfl⟩

/-- Witness for C7: the example runner is returned unchanged by both
state-passing methods, and equal configurations give equal results. -/
theorem guardrail_runner_pure_and_config_preserving_witness :
    (exRunnerABC.run_safety_check_st 7).2 = exRunnerABC ∧
      (exRunnerABC.runPostprocess_st 9).2 = exRunnerABC ∧
      exRunnerABC.run_safety_check 7 = exRunnerABC.run_safety_check 7 ∧
      exRunnerABC.runPostprocess 9 = exRunnerABC.runPostprocess 9 :=
  guardrail_runner_pure_and_config_preserving exRunnerABC exRunnerABC 7 9
    rfl rfl rfl rfl

/-- Claim C9: after construction the safe message is never empty — an
empty (or omitted) `generic_safe_msg` argument is replaced by
"Prompt is safe", a non-empty one is kept — the safe message is
preserved by both methods, and `generic_block_msg` receives no such
default: a runner built with an empty block message keeps it empty. -/
theorem generic_safe_msg_never_empty {α φ : Type}
    (sm : Option (List (ContentSafetyGuardrail α))) (bm s : String)
    (pp : Option (List (PostprocessingGuardrail φ)))
    (input : α) (frames : φ) :
    (mkGuardrailRunner sm bm s pp).generic_safe_msg ≠ "" ∧
      (s = "" → (mkGuardrailRunner sm bm s pp).generic_safe_msg =
        "Prompt is safe") ∧
      (s ≠ "" → (mkGuardrailRunner sm bm s pp).generic_safe_msg = s) ∧
      ((mkGuardrailRunner sm bm s pp).run_safety_check_st
          input).2.generic_safe_msg =
        (mkGuardrailRunner sm bm s pp).generic_safe_msg ∧
      ((mkGuardrailRunner sm bm s pp).runPostprocess_st
          frames).2.generic_safe_msg =
        (mkGuardrailRunner sm bm s pp).generic_safe_msg ∧
      (mkGuardrailRunner sm "" s pp).generic_block_msg = "" := by
  refine ⟨?_, ?_, ?_, ?_, ?_, rfl⟩
  · by_cases hs : s = "" <;> simp [mkGuardrailRunner, hs]
  · intro hs
    simp [mkGuardrailRunner, hs]
  · intro hs
    simp [mkGuardrailRunner, hs]
  · rw [run_safety_check_st_snd]
  · rw [runPostprocess_st_snd]

/-- Witness for C9 at a concrete construction with both messages empty:
the stored safe message is the non-empty default and the block message
stays empty. -/
theorem generic_safe_msg_never_empty_witness :
    (mkGuardrailRunner (Option.some [exCheckerA]) "" ""
        (Option.none : Option (List (PostprocessingGuardrail Nat)))).generic_safe_msg
        ≠ "" ∧
      ("" = "" → (mkGuardrailRunner (Option.some [exCheckerA]) "" ""
        (Option.none : Option (List (PostprocessingGuardrail Nat)))).generic_safe_msg =
        "Prompt is safe") ∧
      ("" ≠ "" → (mkGuardrailRunner (Option.some [exCheckerA]) "" ""
        (Option.none : Option (List (PostprocessingGuardrail Nat)))).generic_safe_msg =
        "") ∧
      ((mkGuardrailRunner (Option.some [exCheckerA]) "" ""
          (Option.none : Option (List (PostprocessingGuardrail Nat)))).run_safety_check_st
          3).2.generic_safe_msg =
        (mkGuardrailRunner (Option.some [exCheckerA]) "" ""
          (Option.none : Option (List (PostprocessingGuardrail Nat)))).generic_safe_msg ∧
      ((mkGuardrailRunner (Option.some [exCheckerA]) "" ""
          (Option.none : Option (List (PostprocessingGuardrail Nat)))).runPostprocess_st
          4).2.generic_safe_msg =
        (mkGuardrailRunner (Option.some [exCheckerA]) "" ""
          (Option.none : Option (List (PostprocessingGuardrail Nat)))).generic_safe_msg ∧
      (mkGuardrailRunner (Option.some [exCheckerA]) "" ""
        (Option.none : Option (List (PostprocessingGuardrail Nat)))).generic_block_msg =
        "" :=
  generic_safe_msg_never_empty (Option.some [exCheckerA]) "" "" Option.none 3 4

/-- The critical log line for a batch entry without a "prompt" key. -/
def msgMissingPrompt : String := "Prompt is missing, skipping world generation."

/-- The critical log line for a pipeline-level safety block
(`pipeline.generate` returning `None`). -/
def msgGuardrailBlocked : String := "Guardrail blocked text2world generation."

/-- The `for i, input_dict in enumerate(prompts)` loop of `demo` in batch
mode.  An entry is the value of `input_dict.get("prompt", None)`;
`generate p negative_prompt word_limit` models
`pipeline.generate(current_prompt, cfg.negative_prompt,
cfg.word_limit_to_skip_upsampler)`, returning `None` on a pipeline-level
safety block.  The first component collects the files written: for each
saved entry, the index `i` naming both output files ("{i}.mp4" and
"{i}.txt"), the video saved, and the prompt text written.  The second
component collects the critical log lines, in order. -/
def demoBatchLoop {V : Type}
    (generate : String → String → Nat → Option (V × String))
    (negative_prompt : String) (word_limit : Nat) :
    List (Option String) → Nat → List (Nat × V × String) × List String
  | [], _ => ([], [])
  | entry :: rest, i =>
    match entry with
    | Option.none =>
      let res := demoBatchLoop generate negative_prompt word_limit rest (i + 1)
      (res.1, msgMissingPrompt :: res.2)
    | Option.some p =>
      match generate p negative_prompt word_limit with
      | Option.none =>
        let res := demoBatchLoop generate negative_prompt word_limit rest (i + 1)
        (res.1, msgGuardrailBlocked :: res.2)
      | Option.some vp =>
        let res := demoBatchLoop generate negative_prompt word_limit rest (i + 1)
        ((i, vp.1, vp.2) :: res.1, res.2)

/-- The batch processing of `demo`, starting at index 0. -/
def demoBatch {V : Type}
    (generate : String → String → Nat → Option (V × String))
    (negative_prompt : String) (word_limit : Nat)
    (entries : List (Option String)) : List (Nat × V × String) × List String :=
  demoBatchLoop generate negative_prompt word_limit entries 0

/-- Written from the claim's words for the refinement claim C8: the
outputs the batch should produce — every entry with a present prompt and
a non-null generation result yields an output carrying that entry's
original index; skipped entries yield none. -/
def demoBatchOutputsSpec {V : Type}
    (generate : String → String → Nat → Option (V × String))
    (negative_prompt : String) (word_limit : Nat)
    (entries : List (Option String)) : List (Nat × V × String) :=
  (List.enumFrom 0 entries).filterMap fun pe =>
    match pe.2 with
    | Option.none => Option.none
    | Option.some p =>
      match generate p negative_prompt word_limit with
      | Option.none => Option.none
      | Option.some vp => Option.some (pe.1, vp.1, vp.2)

/-- Written from the claim's words for the refinement claim C8: one
critical log line per skipped entry (missing prompt, or pipeline-level
safety block), in batch order. -/
def demoBatchCriticalsSpec {V : Type}
    (generate : String → String → Nat → Option (V × String))
    (negative_prompt : String) (word_limit : Nat)
    (entries : List (Option String)) : List String :=
  entries.filterMap fun entry =>
    match entry with
    | Option.none => Option.some msgMissingPrompt
    | Option.some p =>
      match generate p negative_prompt word_limit with
      | Option.none => Option.some msgGuardrailBlocked
      | Option.some _ => Option.none

lemma demoBatchLoop_spec {V : Type}
    (generate : String → String → Nat → Option (V × String))
    (negative_prompt : String) (word_limit : Nat)
    (entries : List (Option String)) (i : Nat) :
    demoBatchLoop generate negative_prompt word_limit entries i =
      ((List.enumFrom i entries).filterMap fun pe =>
        match pe.2 with
        | Option.none => Option.none
        | Option.some p =>
          match generate p negative_prompt word_limit with
          | Option.none => Option.none
          | Option.some vp => Option.some (pe.1, vp.1, vp.2),
        demoBatchCriticalsSpec generate negative_prompt word_limit entries) := by
  induction entries generalizing i with
  | nil => rfl
  | cons entry rest ih =>
    cases entry with
    | none =>
      simp [demoBatchLoop, ih (i + 1), demoBatchCriticalsSpec, List.enumFrom]
    | some p =>
      cases hg : generate p negative_prompt word_limit with
      | none =>
        simp [demoBatchLoop, hg, ih (i + 1), demoBatchCriticalsSpec,
          List.enumFrom]
      | some vp =>
        simp [demoBatchLoop, hg, ih (i + 1), demoBatchCriticalsSpec,
          List.enumFrom]

lemma demoBatchLoop_length {V : Type}
    (generate : String → String → Nat → Option (V × String))
    (negative_prompt : String) (word_limit : Nat)
    (entries : List (Option String)) (i : Nat) :
    (demoBatchLoop generate negative_prompt word_limit entries i).1.length +
      (demoBatchLoop generate negative_prompt word_limit entries i).2.length =
      entries.length := by
  induction entries generalizing i with
  | nil => rfl
  | cons entry rest ih =>
    cases entry with
    | none =>
      simp only [demoBatchLoop, List.length_cons]
      have h := ih (i + 1)
      omega
    | some p =>
      cases hg : generate p negative_prompt word_limit with
      | none =>
        simp only [demoBatchLoop, hg, List.length_cons]
        have h := ih (i + 1)
        omega
      | some vp =>
        simp only [demoBatchLoop, hg, List.length_cons]
        have h := ih (i + 1)
        omega

/-- Claim C8: the batch loop of `demo` skips every entry whose prompt is
missing and every entry whose generation result is null, emitting one
critical log line for each, writes no output files for skipped entries,
and continues with the remaining entries, whose output files keep their
original indices; outputs and critical skips together account for every
entry. -/
theorem demo_batch_skips_and_keeps_indices {V : Type}
    (generate : String → String → Nat → Option (V × String))
    (negative_prompt : String) (word_limit : Nat)
    (entries : List (Option String)) :
    demoBatch generate negative_prompt word_limit entries =
      (demoBatchOutputsSpec generate negative_prompt word_limit entries,
        demoBatchCriticalsSpec generate negative_prompt word_limit entries) ∧
      (demoBatch generate negative_prompt word_limit entries).1.length +
        (demoBatch generate negative_prompt word_limit entries).2.length =
        entries.length := by
  constructor
  · exact demoBatchLoop_spec generate negative_prompt word_limit entries 0
  · exact demoBatchLoop_length generate negative_prompt word_limit entries 0

/-- The driver configuration fields read by the prompt-source phase of
`demo`. -/
structure DemoCfg where
  batch_input_path : String
  prompt : String

/-- Result of the prompt-source phase of `demo`: the prompt list, or an
uncaught Python NameError from resolving an undefined global name. -/
inductive PromptSourceResult
  | ok (prompts : List (Option String))
  | nameError

/-- The prompt-source phase of `demo` (text2world.py lines 116-121).  In
the batch branch, the `log.info` f-string reads the module-level global
`args` — not the `cfg` parameter — and that name lookup happens before
`read_prompts_from_file(cfg.batch_input_path)` runs; the global is bound
only when the module runs as a script.  `argsGlobal` models the global
(`Option.none` when `demo` is called without it) and `readPromptsFromFile`
models `read_prompts_from_file`. -/
def demoPromptSource (argsGlobal : Option DemoCfg)
    (readPromptsFromFile : String → List (Option String))
    (cfg : DemoCfg) : PromptSourceResult :=
  if cfg.batch_input_path ≠ "" then
    match argsGlobal with
    | Option.none => PromptSourceResult.nameError
    | Option.some _ =>
      PromptSourceResult.ok (readPromptsFromFile cfg.batch_input_path)
  else PromptSourceResult.ok [Option.some cfg.prompt]

/-- Claim C10: calling `demo` with a non-empty `batch_input_path` and no
module-level `args` global raises NameError, and it does so before any
prompt is read: the outcome does not depend on the file-reading
function at all. -/
theorem demo_batch_mode_needs_global_args (cfg : DemoCfg)
    (readPromptsFromFile readPromptsFromFile' :
      String → List (Option String))
    (h : cfg.batch_input_path ≠ "") :
    demoPromptSource Option.none readPromptsFromFile cfg =
        PromptSourceResult.nameError ∧
      demoPromptSource Option.none readPromptsFromFile cfg =
        demoPromptSource Option.none readPromptsFromFile' cfg := by
  constructor <;> simp [demoPromptSource, h]

/-- Witness for C10: a batch path is configured, no global `args` is
bound, and two arbitrary different readers both yield NameError. -/
theorem demo_batch_mode_needs_global_args_witness :
    demoPromptSource Option.none (fun _ => [])
        ⟨"inputs/batch.jsonl", "p"⟩ = PromptSourceResult.nameError ∧
      demoPromptSource Option.none (fun _ => [])
          ⟨"inputs/batch.jsonl", "p"⟩ =
        demoPromptSource Option.none (fun _ => [Option.some "x"])
          ⟨"inputs/batch.jsonl", "p"⟩ :=
  demo_batch_mode_needs_global_args ⟨"inputs/batch.jsonl", "p"⟩
    (fun _ => []) (fun _ => [Option.some "x"]) (by decide)
